import Mathlib

/-!
Verification development for a document-conversion service.

The development shallowly embeds the program's core functions:
  - s3util.split_s3_uri
  - app._try_get_object_bytes and app._resolve_source_bytes_or_404
  - worker._mark, worker._get_source_bytes and worker.run_task
  - tasks.manager.TaskManager.register / TaskManager.run
  - loader._detect_type (bytes branch), the max-side resize steps,
    loader._images_to_bytes / _images_to_zip_bytes / _images_to_pdf_bytes
    and DocumentToImagesLoader.load (bytes input)

Byte strings are modelled as lists of naturals.  External collaborators
(the object store, the primary content classifier, PDF rasterisation,
image decoding/encoding and the external office/HTML converters) are
oracle parameters: the embedded code is exactly the control flow of the
source around those calls.  Machine floating point in the resize ratio
is idealised to exact rational arithmetic (natural floor division).
-/

/-- Result of one storage-object fetch.  In the source this is the boto3
get-object call: an object body, a ClientError whose code is NoSuchKey or
NoSuchBucket (a soft miss), or any other fetch error. -/
inductive FetchResult where
  | found (data : List Nat)
  | missing
  | err (msg : String)
deriving DecidableEq

/-- The object store, addressed by bucket and key. -/
def Store := String → String → FetchResult

deriving instance DecidableEq for Except

/-- Split a character list at the first slash, as Python split with a
limit of one: none when no slash occurs. -/
def splitFirstSlash : List Char → Option (List Char × List Char)
  | [] => none
  | c :: rest =>
    if c = '/' then some ([], rest)
    else match splitFirstSlash rest with
      | none => none
      | some (a, b) => some (c :: a, b)

/-- Embedding of s3util.split_s3_uri: assert the s3 scheme, then split the
remainder at the first slash into bucket and key.  Failure of the assert or
of the two-way unpack is an exception (the error channel). -/
def split_s3_uri (uri : String) : Except String (String × String) :=
  if uri.toList.take 5 = ['s', '3', ':', '/', '/'] then
    match splitFirstSlash (uri.toList.drop 5) with
    | none => .error "not enough values to unpack"
    | some (bucket, key) => .ok (String.mk bucket, String.mk key)
  else .error "AssertionError"

/-- Embedding of app._try_get_object_bytes: a missing object (NoSuchKey or
NoSuchBucket) yields none; any other fetch error re-raises. -/
def try_get_object_bytes (store : Store) (bucket key : String) :
    Except String (Option (List Nat)) :=
  match store bucket key with
  | .found d => .ok (some d)
  | .missing => .ok none
  | .err m => .error m

/-- The columns of the file row read by the verified functions.  The
remaining columns (mime type, byte size, sha256, status, created_at) are
never read by them and are omitted. -/
structure FileRow where
  id : String
  owner_id : String
  user_filename : String
  storage_uri : String
deriving DecidableEq

/-- Canonical storage key, as formatted in app._resolve_source_bytes_or_404. -/
def new_rule_key (f : FileRow) : String :=
  f.owner_id ++ "/source_files/" ++ f.id ++ "/" ++ f.user_filename

/-- Legacy storage key, as formatted in app._resolve_source_bytes_or_404. -/
def old_rule_key (f : FileRow) : String :=
  "uploads/" ++ f.id ++ "/" ++ f.user_filename

/-- Observable outcome of app._resolve_source_bytes_or_404: the resolved
bytes, the 404 carrying the attempted (bucket, key, tag) triples, or an
uncaught exception propagating to the caller. -/
inductive ResolveOutcome where
  | ok (data : List Nat)
  | notFound (tried : List (String × String × String))
  | raised (msg : String)
deriving DecidableEq

/-- Embedding of app._resolve_source_bytes_or_404.  Candidate 1 (the
recorded storage uri) is wrapped in a bare except that swallows both a
malformed uri and a hard fetch error; candidates 2 and 3 are not wrapped,
so a hard fetch error there propagates. -/
def resolve_source_bytes_or_404 (cfgBucket : String) (store : Store)
    (f : FileRow) : ResolveOutcome :=
  let step1 : List (String × String × String) × Option (List Nat) :=
    match split_s3_uri f.storage_uri with
    | .error _ => ([], none)
    | .ok (bkt, key) =>
      match try_get_object_bytes store bkt key with
      | .error _ => ([(bkt, key, "db.storage_uri")], none)
      | .ok none => ([(bkt, key, "db.storage_uri")], none)
      | .ok (some d) => ([(bkt, key, "db.storage_uri")], some d)
  match step1 with
  | (_, some d) => .ok d
  | (tried1, none) =>
    let tried2 := tried1 ++ [(cfgBucket, new_rule_key f, "new_rule")]
    match try_get_object_bytes store cfgBucket (new_rule_key f) with
    | .error m => .raised m
    | .ok (some d) => .ok d
    | .ok none =>
      let tried3 := tried2 ++ [(cfgBucket, old_rule_key f, "old_rule")]
      match try_get_object_bytes store cfgBucket (old_rule_key f) with
      | .error m => .raised m
      | .ok (some d) => .ok d
      | .ok none => .notFound tried3

/-- The task-run row.  The params column is never read by the embedded
functions and is omitted.  Timestamps are naturals. -/
structure TaskRunRec where
  id : String
  file_id : String
  name : String
  status : String
  started_at : Option Nat
  finished_at : Option Nat
  error : Option String
deriving DecidableEq

/-- Embedding of worker._mark: set the status; stamp the start time only
when transitioning to RUNNING with no start time yet; stamp the finish
time on SUCCEEDED or FAILED; always overwrite the error column. -/
def mark (tr : TaskRunRec) (status : String) (now : Nat)
    (err : Option String) : TaskRunRec :=
  { tr with
    status := status
    started_at :=
      if status = "RUNNING" ∧ tr.started_at = none then some now
      else tr.started_at
    finished_at :=
      if status = "SUCCEEDED" ∨ status = "FAILED" then some now
      else tr.finished_at
    error := err }

/-- Embedding of worker._get_source_bytes: split the recorded storage uri
and fetch that single location.  A missing object raises the NoSuchKey
client error; it is not caught here. -/
def get_source_bytes (store : Store) (f : FileRow) : Except String (List Nat) :=
  match split_s3_uri f.storage_uri with
  | .error m => .error m
  | .ok (bucket, key) =>
    match store bucket key with
    | .found d => .ok d
    | .missing => .error "NoSuchKey"
    | .err m => .error m

/-- Result of one handler invocation: normal return or an exception. -/
inductive HandlerResult where
  | ok
  | exn (msg : String)
deriving DecidableEq

/-- A registered task handler: its declared name and its run behaviour. -/
structure Handler where
  name : String
  behavior : TaskRunRec → FileRow → List Nat → HandlerResult

/-- Default whitespace stripped by Python str.strip (ASCII subset). -/
def isPySpace (c : Char) : Bool :=
  c = ' ' ∨ c = '\t' ∨ c = '\n' ∨ c = '\x0d' ∨ c = '\x0b' ∨ c = '\x0c'

/-- Model of Python str.strip with no argument. -/
def pyStrip (s : String) : String :=
  String.mk (((s.toList.dropWhile isPySpace).reverse.dropWhile isPySpace).reverse)

/-- ASCII case folding of one character, as Python str.lower on ASCII. -/
def pyLowerChar (c : Char) : Char :=
  if 'A' ≤ c ∧ c ≤ 'Z' then Char.ofNat (c.toNat + 32) else c

/-- Model of Python str.lower (ASCII names are the only ones compared). -/
def pyLower (s : String) : String := String.mk (s.toList.map pyLowerChar)

/-- ASCII upcasing of one character, as Python str.upper on ASCII. -/
def pyUpperChar (c : Char) : Char :=
  if 'a' ≤ c ∧ c ≤ 'z' then Char.ofNat (c.toNat - 32) else c

/-- Model of Python str.upper (format names are ASCII). -/
def pyUpper (s : String) : String := String.mk (s.toList.map pyUpperChar)

/-- Registration key: Python strip().lower() on the handler or task name. -/
def normKey (s : String) : String := pyLower (pyStrip s)

/-- The registry table, keyed by normalised name (a Python dict is modelled
as an association list; register keeps keys unique). -/
def HandlerMap := List (String × Handler)

/-- First-match lookup in the registry table. -/
def lookupKey : List (String × Handler) → String → Option Handler
  | [], _ => none
  | (k, h) :: rest, key => if k = key then some h else lookupKey rest key

/-- Membership test used by TaskManager.register. -/
def containsKey (hs : List (String × Handler)) (key : String) : Bool :=
  (lookupKey hs key).isSome

/-- Embedding of TaskManager.register: raise when the normalised name is
already present, otherwise insert. -/
def registerHandler (hs : List (String × Handler)) (h : Handler) :
    Except String (List (String × Handler)) :=
  let key := normKey h.name
  if containsKey hs key then .error ("handler already registered: " ++ key)
  else .ok (hs ++ [(key, h)])

/-- Embedding of TaskManager.run: look up the normalised task name; raise
the unknown-task error when absent, otherwise invoke the handler and let
its outcome propagate unmodified. -/
def manager_run (hs : List (String × Handler)) (tr : TaskRunRec)
    (f : FileRow) (data : List Nat) : HandlerResult :=
  let key := normKey tr.name
  match lookupKey hs key with
  | none => .exn ("unknown task: " ++ key)
  | some h => h.behavior tr f data

/-- The database rows reachable from worker.run_task. -/
structure DB where
  runs : String → Option TaskRunRec
  files : String → Option FileRow

/-- Commit one task-run row under its id. -/
def setRun (db : DB) (i : String) (tr : TaskRunRec) : DB :=
  { db with runs := fun j => if j = i then some tr else db.runs j }

/-- How worker.run_task returns to the queue transport: no row found (plain
return), normal completion, or a re-raised exception. -/
inductive RunOutcome where
  | noRun
  | done
  | raised (msg : String)
deriving DecidableEq

/-- Embedding of worker.run_task for one delivered trigger.  t1 is the
clock reading at the first mark, t2 at the terminal mark. -/
def run_task (store : Store) (hs : List (String × Handler)) (db : DB)
    (task_run_id : String) (t1 t2 : Nat) : DB × RunOutcome :=
  match db.runs task_run_id with
  | none => (db, .noRun)
  | some tr =>
    match db.files tr.file_id with
    | none =>
      (setRun db task_run_id (mark tr "FAILED" t1 (some "file not found")), .done)
    | some f =>
      let tr1 := mark tr "RUNNING" t1 none
      let db1 := setRun db task_run_id tr1
      match get_source_bytes store f with
      | .error m =>
        (setRun db1 task_run_id (mark tr1 "FAILED" t2 (some m)), .raised m)
      | .ok data =>
        match manager_run hs tr1 f data with
        | .ok => (setRun db1 task_run_id (mark tr1 "SUCCEEDED" t2 none), .done)
        | .exn m =>
          (setRun db1 task_run_id (mark tr1 "FAILED" t2 (some m)), .raised m)

/-- Embedding of the bytes branch of loader._detect_type: try the primary
classifier (magika, an oracle returning none when it raises); on failure
sniff the fixed magic prefixes; otherwise the generic octet-stream label.
The returned pair is (label-or-mime, detection source); the path component
is always absent for bytes input.  The WEBP test reproduces the source
exactly: the first twelve bytes compared against the four-byte RIFF tag. -/
def detect_type_bytes (magika : List Nat → Option String)
    (data : List Nat) : String × String :=
  match magika data with
  | some label => (label, "magika")
  | none =>
    if data.take 4 = [37, 80, 68, 70] then ("application/pdf", "sniff")
    else if (data.take 8).take 4 = [137, 80, 78, 71] then ("image/png", "sniff")
    else if data.take 3 = [255, 216, 255] then ("image/jpeg", "sniff")
    else if data.take 4 = [73, 73, 42, 0] ∨ data.take 4 = [77, 77, 0, 42] then
      ("image/tiff", "sniff")
    else if data.take 12 = [82, 73, 70, 70] ∧
        ((data.drop 8).take 4 = [87, 69, 66, 80]) then ("image/webp", "sniff")
    else ("application/octet-stream", "sniff")

/-- The extension guessed for a bytes input when writing the temp file in
DocumentToImagesLoader.load. -/
def guessedExt (mime : Option String) : String :=
  match mime with
  | some "application/pdf" => ".pdf"
  | some "text/html" => ".html"
  | some "image/png" => ".png"
  | some "image/jpeg" => ".jpg"
  | some "image/tiff" => ".tiff"
  | some "image/webp" => ".webp"
  | _ => ".bin"

/-- The classification fields load derives for a bytes input: label when
the primary classifier succeeded, mime otherwise, the guessed temp-file
extension, and the detection source. -/
structure Detected where
  label : Option String
  mime : Option String
  ext : String
  src : String
deriving DecidableEq

/-- Derive the Detected fields for a bytes input, as in the preamble of
DocumentToImagesLoader.load. -/
def detectFields (magika : List Nat → Option String) (data : List Nat) :
    Detected :=
  let r := detect_type_bytes magika data
  let label := if r.2 = "magika" then some r.1 else none
  let mime := if r.2 = "magika" then none else some r.1
  { label := label, mime := mime, ext := guessedExt mime, src := r.2 }

/-- OFFICE_LABELS of DocumentToImagesLoader. -/
def OFFICE_LABELS : List String :=
  ["doc", "docx", "ppt", "pptx", "xls", "xlsx", "odt", "odp", "ods", "rtf"]

/-- IMAGE_LABELS of DocumentToImagesLoader. -/
def IMAGE_LABELS : List String := ["png", "jpeg", "jpg", "webp", "tiff", "bmp"]

/-- HTML_LABELS of DocumentToImagesLoader. -/
def HTML_LABELS : List String := ["html", "htm"]

/-- OFFICE_MIMES of DocumentToImagesLoader. -/
def OFFICE_MIMES : List String :=
  ["application/msword",
   "application/vnd.openxmlformats-officedocument.wordprocessingml.document",
   "application/vnd.ms-powerpoint",
   "application/vnd.openxmlformats-officedocument.presentationml.presentation",
   "application/vnd.ms-excel",
   "application/vnd.openxmlformats-officedocument.spreadsheetml.sheet",
   "application/rtf",
   "application/vnd.oasis.opendocument.text",
   "application/vnd.oasis.opendocument.presentation",
   "application/vnd.oasis.opendocument.spreadsheet"]

/-- IMAGE_EXTS of DocumentToImagesLoader. -/
def IMAGE_EXTS : List String :=
  [".png", ".jpg", ".jpeg", ".tiff", ".tif", ".webp", ".bmp"]

/-- HTML_EXTS of DocumentToImagesLoader. -/
def HTML_EXTS : List String := [".html", ".htm"]

/-- The is_pdf routing signal of load. -/
def pdfFamilyB (dt : Detected) : Bool :=
  dt.label == some "pdf" || dt.mime == some "application/pdf" || dt.ext == ".pdf"

/-- The is_office routing signal of load. -/
def officeFamilyB (dt : Detected) : Bool :=
  (match dt.label with | some l => OFFICE_LABELS.contains l | none => false) ||
  (match dt.mime with | some m => OFFICE_MIMES.contains m | none => false)

/-- The is_html routing signal of load. -/
def htmlFamilyB (dt : Detected) : Bool :=
  (match dt.label with | some l => HTML_LABELS.contains l | none => false) ||
  dt.mime == some "text/html" || HTML_EXTS.contains dt.ext

/-- The is_image routing signal of load. -/
def imageFamilyB (dt : Detected) : Bool :=
  (match dt.label with | some l => IMAGE_LABELS.contains l | none => false) ||
  (match dt.mime with
   | some m => m.toList.take 6 = ['i', 'm', 'a', 'g', 'e', '/']
   | none => false) ||
  IMAGE_EXTS.contains dt.ext

/-- An in-memory page image: pixel dimensions, a colour mode, and an
abstract pixel payload identifier. -/
structure Img where
  width : Nat
  height : Nat
  mode : String
  pix : Nat
deriving DecidableEq

/-- Embedding of the max-side downscale step as written inside
loader._open_pdf_as_images (lines 200 to 205): when the longest side
exceeds max_side, both dimensions are multiplied by the ratio and
truncated toward zero.  The Python float ratio is idealised to the exact
rational, so int(w * r) becomes floor division. -/
def resizeStepPdfPath (max_side : Option Nat) (im : Img) : Img :=
  match max_side with
  | none => im
  | some ms =>
    let m := max im.width im.height
    if ms < m then
      { im with width := im.width * ms / m, height := im.height * ms / m }
    else im

/-- Embedding of the identical max-side downscale step as written inside
the single-image branch of DocumentToImagesLoader.load (lines 391 to 396). -/
def resizeStepImagePath (max_side : Option Nat) (im : Img) : Img :=
  match max_side with
  | none => im
  | some ms =>
    let m := max im.width im.height
    if ms < m then
      { im with width := im.width * ms / m, height := im.height * ms / m }
    else im

/-- Round half up of the rational p / q, used to state the one-pixel bound
of the specification. -/
def roundDiv (p q : Nat) : Nat := (2 * p + q) / (2 * q)

/-- External collaborators of the loader, as oracles: the primary
classifier, PDF page rasterisation at a dpi (fitz), raster image decoding
to RGBA (PIL open plus convert), the external office and HTML converters,
image encoding to a format, conversion to RGB, and background flattening. -/
structure LoadCtx where
  magika : List Nat → Option String
  pdfPages : List Nat → Nat → Except String (List Img)
  decodeImg : List Nat → Except String Img
  officeToPdf : List Nat → Except String (List Nat)
  htmlToPdf : List Nat → Except String (List Nat)
  encodeImg : Img → String → List Nat
  convRGB : Img → Img
  flattenBg : Img → Img

/-- Embedding of loader._open_pdf_as_images: rasterise every page at the
requested dpi, flatten onto the background when one is given and the page
is RGBA, then apply the max-side downscale step to each page. -/
def open_pdf_as_images (ctx : LoadCtx) (pdf : List Nat) (dpi : Nat)
    (max_side : Option Nat) (bg : Option (Nat × Nat × Nat × Nat)) :
    Except String (List Img) :=
  (ctx.pdfPages pdf dpi).map (fun pages =>
    pages.map (fun im0 =>
      let im1 := match bg with
        | some _ => if im0.mode = "RGBA" then ctx.flattenBg im0 else im0
        | none => im0
      resizeStepPdfPath max_side im1))

/-- The JPEG guard applied before each save: convert to RGB when saving as
JPEG or JPG from a non-RGB image. -/
def jpegFix (conv : Img → Img) (fmt : String) (im : Img) : Img :=
  if (pyUpper fmt = "JPG" ∨ pyUpper fmt = "JPEG") ∧ im.mode ≠ "RGB" then conv im
  else im

/-- Embedding of DocumentToImagesLoader._images_to_bytes: encode every
page independently in the requested format. -/
def images_to_bytes (conv : Img → Img) (enc : Img → String → List Nat)
    (images : List Img) (fmt : String) : List (List Nat) :=
  images.map (fun im => enc (jpegFix conv fmt im) fmt)

/-- Zero-padding to width four, as Python percent-04d for naturals. -/
def pad4 (n : Nat) : String :=
  let s := toString n
  if s.length < 4 then String.mk (List.replicate (4 - s.length) '0' ++ s.toList)
  else s

/-- Last index of a dot in a character list. -/
def lastDotAux : List Char → Nat → Option Nat → Option Nat
  | [], _, acc => acc
  | c :: rest, i, acc => lastDotAux rest (i + 1) (if c = '.' then some i else acc)

/-- Model of os.path.splitext for a bare file name (no separators): split
at the last dot unless every character before it is a dot. -/
def splitext (s : String) : String × String :=
  let cs := s.toList
  match lastDotAux cs 0 none with
  | none => (s, "")
  | some i =>
    if (cs.take i).all (· = '.') then (s, "")
    else (String.mk (cs.take i), String.mk (cs.drop i))

/-- Archive entry name for 1-based page number i, as in
DocumentToImagesLoader._images_to_zip_bytes. -/
def zipEntryName (pref fmt : String) (hint : Option String) (i : Nat) : String :=
  match hint with
  | some nh =>
    let r := splitext nh
    r.1 ++ "_" ++ pad4 i ++ (if r.2 = "" then "." ++ pyLower fmt else r.2)
  | none => pref ++ "_" ++ pad4 i ++ "." ++ pyLower fmt

/-- Embedding of DocumentToImagesLoader._images_to_zip_bytes as the ordered
list of archive entries (name, encoded bytes), pages numbered from 1. -/
def images_to_zip_entries (conv : Img → Img) (enc : Img → String → List Nat)
    (images : List Img) (fmt pref : String) (hint : Option String) :
    List (String × List Nat) :=
  images.enum.map (fun p =>
    (zipEntryName pref fmt hint (p.1 + 1), enc (jpegFix conv fmt p.2) fmt))

/-- One page of the synthesised PDF: its size in points (pixels divided by
dpi times 72, exact rationals) and the embedded lossless PNG stream. -/
structure PdfPage where
  wpt : ℚ
  hpt : ℚ
  png : List Nat
deriving DecidableEq

/-- Embedding of DocumentToImagesLoader._images_to_pdf_bytes as the ordered
list of produced PDF pages: each image becomes exactly one page. -/
def images_to_pdf_pages (conv : Img → Img) (enc : Img → String → List Nat)
    (dpi : Nat) (images : List Img) : List PdfPage :=
  images.map (fun im0 =>
    let im := if im0.mode ≠ "RGB" ∧ im0.mode ≠ "L" then conv im0 else im0
    { wpt := (im.width : ℚ) / (dpi : ℚ) * 72,
      hpt := (im.height : ℚ) / (dpi : ℚ) * 72,
      png := enc im "PNG" })

/-- Embedding of LoadOptions with the source defaults.  The filename
prefix field is named pref here. -/
structure LoadOptions where
  dpi : Nat := 200
  max_side : Option Nat := none
  background_rgba : Option (Nat × Nat × Nat × Nat) := none
  save : Bool := false
  output_dir : Option String := none
  pref : String := "page"
  image_format : String := "PNG"
  return_mode : String := "PIL"
  zip_hint : Option String := none

/-- The file names produced by the PATHS return mode (the default output
directory under the working directory is abstracted as doc_images). -/
def pathsOf (o : LoadOptions) (images : List Img) : List String :=
  let out_dir := match o.output_dir with | some d2 => d2 | none => "doc_images"
  (List.range images.length).map (fun i =>
    out_dir ++ "/" ++ o.pref ++ "_" ++ pad4 (i + 1) ++ "." ++
      pyLower o.image_format)

/-- The shapes DocumentToImagesLoader.load can return, one constructor per
return mode; the direct PDF pass-through and the synthesised PDF are kept
distinct so byte identity is observable. -/
inductive LoadResult where
  | pil (pages : List Img)
  | bytesList (bs : List (List Nat))
  | paths (ps : List String)
  | zipBytes (entries : List (String × List Nat))
  | pdf (d : List Nat)
  | pdfAssembled (pages : List PdfPage)
deriving DecidableEq

/-- Render an optional string the way Python str formats None. -/
def optStr (o : Option String) : String :=
  match o with
  | some s => s
  | none => "None"

/-- Embedding of DocumentToImagesLoader.load for a bytes input: derive the
classification fields, compute the four family signals, take the
PDF_BYTES short cut for PDF (identity), office and HTML input, otherwise
rasterise along the routed backend and assemble the requested return
mode.  For a PDF source the rasteriser receives the same bytes whether
passed directly or through the temp file, so one call stands for both. -/
def loader_load (ctx : LoadCtx) (data : List Nat) (o : LoadOptions) :
    Except String LoadResult :=
  let fmt := o.image_format
  let dt := detectFields ctx.magika data
  let is_pdf := pdfFamilyB dt
  let is_office := officeFamilyB dt
  let is_html := htmlFamilyB dt
  let is_image := imageFamilyB dt
  let short : Option (Except String LoadResult) :=
    if o.return_mode = "PDF_BYTES" then
      if is_pdf then some (.ok (.pdf data))
      else if is_office then some ((ctx.officeToPdf data).map LoadResult.pdf)
      else if is_html then some ((ctx.htmlToPdf data).map LoadResult.pdf)
      else none
    else none
  match short with
  | some r => r
  | none =>
    let imagesE : Except String (List Img) :=
      if is_pdf then
        open_pdf_as_images ctx data o.dpi o.max_side o.background_rgba
      else if is_office then
        (ctx.officeToPdf data).bind (fun p =>
          open_pdf_as_images ctx p o.dpi o.max_side o.background_rgba)
      else if is_html then
        (ctx.htmlToPdf data).bind (fun p =>
          open_pdf_as_images ctx p o.dpi o.max_side o.background_rgba)
      else if is_image then
        (ctx.decodeImg data).map (fun im0 =>
          let im1 := match o.background_rgba with
            | some _ => ctx.flattenBg im0
            | none => im0
          [resizeStepImagePath o.max_side im1])
      else if dt.ext ≠ ".bin" then
        (ctx.officeToPdf data).bind (fun p =>
          open_pdf_as_images ctx p o.dpi o.max_side o.background_rgba)
      else
        .error ("Unsupported or unknown document type: label=" ++
          optStr dt.label ++ " mime=" ++ optStr dt.mime ++ " ext=" ++ dt.ext ++
          " src=" ++ dt.src)
    imagesE.bind (fun images =>
      if o.return_mode = "PIL" then .ok (.pil images)
      else if o.return_mode = "BYTES" then
        .ok (.bytesList (images_to_bytes ctx.convRGB ctx.encodeImg images fmt))
      else if o.return_mode = "PATHS" then .ok (.paths (pathsOf o images))
      else if o.return_mode = "ZIP_BYTES" then
        .ok (.zipBytes (images_to_zip_entries ctx.convRGB ctx.encodeImg images
          fmt o.pref o.zip_hint))
      else if o.return_mode = "PDF_BYTES" then
        .ok (.pdfAssembled (images_to_pdf_pages ctx.convRGB ctx.encodeImg
          o.dpi images))
      else .error ("Unknown return_mode: " ++ o.return_mode))

/-- Concrete pending task-run row used by witnesses. -/
def tr0 : TaskRunRec :=
  { id := "r", file_id := "f", name := "doc_convert", status := "PENDING",
    started_at := none, finished_at := none, error := none }

/-- Concrete file row used by witnesses. -/
def f0 : FileRow :=
  { id := "f", owner_id := "o", user_filename := "a.txt",
    storage_uri := "s3://b/k" }

/-- Concrete store holding the object recorded on f0. -/
def store0 : Store := fun b k =>
  if b = "b" ∧ k = "k" then .found [1, 2] else .missing

/-- Concrete handler used by witnesses. -/
def h0 : Handler := { name := "doc_convert", behavior := fun _ _ _ => .ok }

/-- Concrete registry used by witnesses. -/
def hs0 : List (String × Handler) := [("doc_convert", h0)]

/-- Concrete database holding tr0 and f0. -/
def db0 : DB :=
  { runs := fun i => if i = "r" then some tr0 else none,
    files := fun i => if i = "f" then some f0 else none }

/-- C1.  For every delivered trigger, worker.run_task follows exactly the
specified sequence: a missing run row is a no-op return; a missing file
row marks the run FAILED with the error text file not found and stops; a
present file row is marked RUNNING, the source bytes are resolved, the
registry dispatches on the run's name, a normal handler return marks the
run SUCCEEDED, and any exception (source resolution or handler) marks the
run FAILED with the exception's message and is re-raised to the caller. -/
theorem run_task_trigger_sequence (store : Store)
    (hs : List (String × Handler)) (db : DB) (rid : String) (t1 t2 : Nat) :
    (db.runs rid = none → run_task store hs db rid t1 t2 = (db, .noRun)) ∧
    (∀ tr, db.runs rid = some tr → db.files tr.file_id = none →
      run_task store hs db rid t1 t2 =
        (setRun db rid (mark tr "FAILED" t1 (some "file not found")), .done)) ∧
    (∀ tr f d, db.runs rid = some tr → db.files tr.file_id = some f →
      get_source_bytes store f = .ok d →
      manager_run hs (mark tr "RUNNING" t1 none) f d = .ok →
      run_task store hs db rid t1 t2 =
        (setRun (setRun db rid (mark tr "RUNNING" t1 none)) rid
          (mark (mark tr "RUNNING" t1 none) "SUCCEEDED" t2 none), .done)) ∧
    (∀ tr f d m, db.runs rid = some tr → db.files tr.file_id = some f →
      get_source_bytes store f = .ok d →
      manager_run hs (mark tr "RUNNING" t1 none) f d = .exn m →
      run_task store hs db rid t1 t2 =
        (setRun (setRun db rid (mark tr "RUNNING" t1 none)) rid
          (mark (mark tr "RUNNING" t1 none) "FAILED" t2 (some m)),
          .raised m)) ∧
    (∀ tr f m, db.runs rid = some tr → db.files tr.file_id = some f →
      get_source_bytes store f = .error m →
      run_task store hs db rid t1 t2 =
        (setRun (setRun db rid (mark tr "RUNNING" t1 none)) rid
          (mark (mark tr "RUNNING" t1 none) "FAILED" t2 (some m)),
          .raised m)) := by
  refine ⟨?_, ?_, ?_, ?_, ?_⟩
  · intro h
    simp [run_task, h]
  · intro tr h1 h2
    simp [run_task, h1, h2]
  · intro tr f d h1 h2 h3 h4
    simp [run_task, h1, h2, h3, h4]
  · intro tr f d m h1 h2 h3 h4
    simp [run_task, h1, h2, h3, h4]
  · intro tr f m h1 h2 h3
    simp [run_task, h1, h2, h3]

/-- Witness for C1: the success branch evaluated on concrete rows. -/
theorem run_task_trigger_sequence_witness :
    run_task store0 hs0 db0 "r" 1 2 =
      (setRun (setRun db0 "r" (mark tr0 "RUNNING" 1 none)) "r"
        (mark (mark tr0 "RUNNING" 1 none) "SUCCEEDED" 2 none), .done) :=
  (run_task_trigger_sequence store0 hs0 db0 "r" 1 2).2.2.1 tr0 f0 [1, 2]
    (by decide) (by decide) (by decide) (by decide)

/-- Concrete already-failed task-run row used by the C2 counterexample. -/
def trF : TaskRunRec :=
  { id := "r", file_id := "f", name := "doc_convert", status := "FAILED",
    started_at := some 0, finished_at := some 0, error := some "boom" }

/-- Concrete database holding the already-failed run trF and file f0. -/
def dbF : DB :=
  { runs := fun i => if i = "r" then some trF else none,
    files := fun i => if i = "f" then some f0 else none }

/-- Counterexample to C2.  A run already in the terminal state FAILED is
redelivered: worker.run_task re-marks it RUNNING and re-executes, and the
delivery ends with the status changed away from FAILED to SUCCEEDED, so
SUCCEEDED and FAILED are not terminal across trigger deliveries. -/
theorem redelivery_reopens_finished_run :
    dbF.runs "r" = some trF ∧ trF.status = "FAILED" ∧
    Option.map TaskRunRec.status ((run_task store0 hs0 dbF "r" 5 6).1.runs "r")
      = some "SUCCEEDED" := by
  decide

/-- C2 as amended.  Every single delivery whose run row exists ends with
the run in SUCCEEDED or FAILED and makes no further transition afterwards
within that delivery; terminality does not hold across deliveries, since a
redelivered trigger re-marks the run RUNNING and re-executes. -/
theorem run_task_delivery_ends_terminal (store : Store)
    (hs : List (String × Handler)) (db : DB) (rid : String) (t1 t2 : Nat)
    (tr : TaskRunRec) (h : db.runs rid = some tr) :
    ∃ tr2, (run_task store hs db rid t1 t2).1.runs rid = some tr2 ∧
      (tr2.status = "SUCCEEDED" ∨ tr2.status = "FAILED") := by
  cases hf : db.files tr.file_id with
  | none =>
    exact ⟨mark tr "FAILED" t1 (some "file not found"),
      by simp [run_task, h, hf, setRun], Or.inr rfl⟩
  | some f =>
    cases hg : get_source_bytes store f with
    | error m =>
      exact ⟨mark (mark tr "RUNNING" t1 none) "FAILED" t2 (some m),
        by simp [run_task, h, hf, hg, setRun], Or.inr rfl⟩
    | ok d =>
      cases hm : manager_run hs (mark tr "RUNNING" t1 none) f d with
      | ok =>
        exact ⟨mark (mark tr "RUNNING" t1 none) "SUCCEEDED" t2 none,
          by simp [run_task, h, hf, hg, hm, setRun], Or.inl rfl⟩
      | exn m =>
        exact ⟨mark (mark tr "RUNNING" t1 none) "FAILED" t2 (some m),
          by simp [run_task, h, hf, hg, hm, setRun], Or.inr rfl⟩

/-- Witness for the amended C2 on concrete rows. -/
theorem run_task_delivery_ends_terminal_witness :
    ∃ tr2, (run_task store0 hs0 db0 "r" 1 2).1.runs "r" = some tr2 ∧
      (tr2.status = "SUCCEEDED" ∨ tr2.status = "FAILED") :=
  run_task_delivery_ends_terminal store0 hs0 db0 "r" 1 2 tr0 (by decide)

/-- C3.  A run created PENDING (no timestamps, no error) and driven once
ends in exactly one of SUCCEEDED or FAILED; its finish stamp is not
earlier than its start stamp; its error column is set exactly when the
final status is FAILED; and the transition to RUNNING stamps a start time
only when none is set, leaving an existing start stamp unchanged. -/
theorem run_task_pending_lifecycle (store : Store)
    (hs : List (String × Handler)) (db : DB) (rid : String) (t1 t2 : Nat)
    (tr : TaskRunRec) (h : db.runs rid = some tr)
    (hst : tr.status = "PENDING") (hsa : tr.started_at = none)
    (hfa : tr.finished_at = none) (her : tr.error = none) (ht : t1 ≤ t2) :
    (∃ tr2, (run_task store hs db rid t1 t2).1.runs rid = some tr2 ∧
      ((tr2.status = "SUCCEEDED" ∧ ¬tr2.status = "FAILED") ∨
       (tr2.status = "FAILED" ∧ ¬tr2.status = "SUCCEEDED")) ∧
      (∀ s fin, tr2.started_at = some s → tr2.finished_at = some fin →
        s ≤ fin) ∧
      (tr2.error.isSome = true ↔ tr2.status = "FAILED")) ∧
    (∀ (tr3 : TaskRunRec) (t : Nat) (e : Option String) (s0 : Nat),
      tr3.started_at = some s0 → (mark tr3 "RUNNING" t e).started_at = some s0) := by
  constructor
  · cases hf : db.files tr.file_id with
    | none =>
      refine ⟨mark tr "FAILED" t1 (some "file not found"),
        by simp [run_task, h, hf, setRun], ?_, ?_, ?_⟩
      · exact Or.inr (by simp [mark])
      · intro s fin hs2 _
        simp [mark, hsa] at hs2
      · simp [mark]
    | some f =>
      cases hg : get_source_bytes store f with
      | error m =>
        refine ⟨mark (mark tr "RUNNING" t1 none) "FAILED" t2 (some m),
          by simp [run_task, h, hf, hg, setRun], ?_, ?_, ?_⟩
        · exact Or.inr (by simp [mark])
        · intro s fin hs2 hf2
          simp [mark, hsa] at hs2 hf2
          omega
        · simp [mark]
      | ok d =>
        cases hm : manager_run hs (mark tr "RUNNING" t1 none) f d with
        | ok =>
          refine ⟨mark (mark tr "RUNNING" t1 none) "SUCCEEDED" t2 none,
            by simp [run_task, h, hf, hg, hm, setRun], ?_, ?_, ?_⟩
          · exact Or.inl (by simp [mark])
          · intro s fin hs2 hf2
            simp [mark, hsa] at hs2 hf2
            omega
          · simp [mark]
        | exn m =>
          refine ⟨mark (mark tr "RUNNING" t1 none) "FAILED" t2 (some m),
            by simp [run_task, h, hf, hg, hm, setRun], ?_, ?_, ?_⟩
          · exact Or.inr (by simp [mark])
          · intro s fin hs2 hf2
            simp [mark, hsa] at hs2 hf2
            omega
          · simp [mark]
  · intro tr3 t e s0 hs3
    simp [mark, hs3]

/-- Witness for C3 on concrete rows. -/
theorem run_task_pending_lifecycle_witness :
    (∃ tr2, (run_task store0 hs0 db0 "r" 1 2).1.runs "r" = some tr2 ∧
      ((tr2.status = "SUCCEEDED" ∧ ¬tr2.status = "FAILED") ∨
       (tr2.status = "FAILED" ∧ ¬tr2.status = "SUCCEEDED")) ∧
      (∀ s fin, tr2.started_at = some s → tr2.finished_at = some fin →
        s ≤ fin) ∧
      (tr2.error.isSome = true ↔ tr2.status = "FAILED")) ∧
    (∀ (tr3 : TaskRunRec) (t : Nat) (e : Option String) (s0 : Nat),
      tr3.started_at = some s0 → (mark tr3 "RUNNING" t e).started_at = some s0) :=
  run_task_pending_lifecycle store0 hs0 db0 "r" 1 2 tr0 (by decide) (by decide)
    (by decide) (by decide) (by decide) (by decide)

/-- Concrete store for C4: the recorded location misses, the canonical key
holds the object. -/
def store4 : Store := fun b k =>
  if b = "cfg" ∧ k = "o/source_files/f/a.txt" then .found [7] else .missing

/-- Counterexample to C4.  On the same file row and store, the fallback
chain of the synchronous path resolves the bytes through the canonical
key, while the resolution performed on the task path
(worker._get_source_bytes) raises the missing-object client error: the
two resolutions are not the same function, and the task path does not try
the canonical or legacy keys. -/
theorem worker_fetch_differs_from_chain :
    resolve_source_bytes_or_404 "cfg" store4 f0 = .ok [7] ∧
    get_source_bytes store4 f0 = .error "NoSuchKey" := by
  decide

/-- C4 as amended.  The task path resolves source bytes from the recorded
storage location alone: it agrees with the fallback chain whenever that
first candidate yields the object, it reads no other location (its result
depends only on the store at the recorded bucket and key), and it fails
as soon as that single location misses. -/
theorem worker_fetch_candidate_one_only (store store2 : Store) (f : FileRow)
    (b k : String) (d : List Nat)
    (hsplit : split_s3_uri f.storage_uri = .ok (b, k)) :
    (store b k = .found d → get_source_bytes store f = .ok d ∧
      ∀ cfgB, resolve_source_bytes_or_404 cfgB store f = .ok d) ∧
    (store b k = .missing → get_source_bytes store f = .error "NoSuchKey") ∧
    (store b k = store2 b k →
      get_source_bytes store f = get_source_bytes store2 f) := by
  refine ⟨?_, ?_, ?_⟩
  · intro h
    refine ⟨by simp [get_source_bytes, hsplit, h], ?_⟩
    intro cfgB
    simp [resolve_source_bytes_or_404, hsplit, try_get_object_bytes, h]
  · intro h
    simp [get_source_bytes, hsplit, h]
  · intro h
    simp [get_source_bytes, hsplit, h]

/-- Witness for the amended C4 on concrete rows. -/
theorem worker_fetch_candidate_one_only_witness :
    (store0 "b" "k" = .found [1, 2] → get_source_bytes store0 f0 = .ok [1, 2] ∧
      ∀ cfgB, resolve_source_bytes_or_404 cfgB store0 f0 = .ok [1, 2]) ∧
    (store0 "b" "k" = .missing → get_source_bytes store0 f0 = .error "NoSuchKey") ∧
    (store0 "b" "k" = store0 "b" "k" →
      get_source_bytes store0 f0 = get_source_bytes store0 f0) :=
  worker_fetch_candidate_one_only store0 store0 f0 "b" "k" [1, 2] (by decide)

/-- Concrete store for C5: the recorded location misses and the canonical
key fetch fails hard, while the legacy key location remains untried. -/
def store5 : Store := fun b k =>
  if b = "cfg" ∧ k = "o/source_files/f/a.txt" then .err "boom" else .missing

/-- Counterexample to C5.  With the first candidate a soft miss and the
second candidate failing with a non-missing fetch error, the resolver
propagates that error instead of continuing to the third candidate and
instead of raising the not-found diagnostic: a hard fetch error is only
swallowed on the first candidate. -/
theorem resolve_hard_error_aborts :
    resolve_source_bytes_or_404 "cfg" store5 f0 = .raised "boom" ∧
    store5 "cfg" "uploads/f/a.txt" = .missing := by
  decide

/-- C5 as amended.  Resolution tries the three candidates in the fixed
order and returns the first object found; a missing object on any
candidate is a soft miss and resolution continues; a non-missing fetch
error is swallowed only on the first candidate (where a malformed
recorded uri is swallowed too), while on the second or third candidate it
aborts resolution and propagates; only when every candidate soft-misses
does it raise the not-found error enumerating every attempted
(bucket, key, source-tag) triple. -/
theorem resolve_fallback_chain_behavior (cfgB : String) (store : Store)
    (f : FileRow) (b k : String) (d : List Nat) (m : String) :
    (split_s3_uri f.storage_uri = .ok (b, k) → store b k = .found d →
      resolve_source_bytes_or_404 cfgB store f = .ok d) ∧
    (split_s3_uri f.storage_uri = .ok (b, k) → store b k = .missing →
      store cfgB (new_rule_key f) = .found d →
      resolve_source_bytes_or_404 cfgB store f = .ok d) ∧
    (split_s3_uri f.storage_uri = .ok (b, k) → store b k = .err m →
      store cfgB (new_rule_key f) = .found d →
      resolve_source_bytes_or_404 cfgB store f = .ok d) ∧
    (split_s3_uri f.storage_uri = .ok (b, k) → store b k = .missing →
      store cfgB (new_rule_key f) = .missing →
      store cfgB (old_rule_key f) = .found d →
      resolve_source_bytes_or_404 cfgB store f = .ok d) ∧
    (split_s3_uri f.storage_uri = .ok (b, k) → store b k = .missing →
      store cfgB (new_rule_key f) = .missing →
      store cfgB (old_rule_key f) = .missing →
      resolve_source_bytes_or_404 cfgB store f =
        .notFound [(b, k, "db.storage_uri"), (cfgB, new_rule_key f, "new_rule"),
          (cfgB, old_rule_key f, "old_rule")]) ∧
    (split_s3_uri f.storage_uri = .ok (b, k) → store b k = .missing →
      store cfgB (new_rule_key f) = .err m →
      resolve_source_bytes_or_404 cfgB store f = .raised m) ∧
    (split_s3_uri f.storage_uri = .ok (b, k) → store b k = .missing →
      store cfgB (new_rule_key f) = .missing →
      store cfgB (old_rule_key f) = .err m →
      resolve_source_bytes_or_404 cfgB store f = .raised m) ∧
    (split_s3_uri f.storage_uri = .error m →
      store cfgB (new_rule_key f) = .missing →
      store cfgB (old_rule_key f) = .missing →
      resolve_source_bytes_or_404 cfgB store f =
        .notFound [(cfgB, new_rule_key f, "new_rule"),
          (cfgB, old_rule_key f, "old_rule")]) := by
  refine ⟨?_, ?_, ?_, ?_, ?_, ?_, ?_, ?_⟩ <;>
    intro h1 h2 <;>
    first
    | (intro h3 h4
       simp [resolve_source_bytes_or_404, try_get_object_bytes, h1, h2, h3, h4])
    | (intro h3
       simp [resolve_source_bytes_or_404, try_get_object_bytes, h1, h2, h3])
    | simp [resolve_source_bytes_or_404, try_get_object_bytes, h1, h2]

/-- Witness for the amended C5: the first candidate hit on concrete rows. -/
theorem resolve_fallback_chain_behavior_witness :
    resolve_source_bytes_or_404 "cfg" store0 f0 = .ok [1, 2] :=
  (resolve_fallback_chain_behavior "cfg" store0 f0 "b" "k" [1, 2] "m").1
    (by decide) (by decide)

/-- A well-formed twelve-byte WEBP header: RIFF, a four-byte size, WEBP. -/
def webpHeader : List Nat := [82, 73, 70, 70, 0, 0, 0, 0, 87, 69, 66, 80]

/-- C6 (code bug).  With the primary classifier failing, the sniffing
fallback labels a well-formed WEBP header as the generic octet-stream
label instead of WEBP: the source compares the first twelve bytes against
the four-byte RIFF tag, a condition no buffer with a WEBP header can
satisfy, so the WEBP branch is dead.  The PDF sniff on the same fallback
path works, showing the failure is specific to the WEBP test. -/
theorem webp_sniff_dead_branch :
    detect_type_bytes (fun _ => none) webpHeader =
      ("application/octet-stream", "sniff") ∧
    detect_type_bytes (fun _ => none) [37, 80, 68, 70] =
      ("application/pdf", "sniff") := by
  decide

/-- Oracle bundle with a failing primary classifier and a zero-page PDF
rasteriser, used by concrete loader evaluations. -/
def ctx0 : LoadCtx :=
  { magika := fun _ => none,
    pdfPages := fun _ _ => .ok [],
    decodeImg := fun _ => .error "unused",
    officeToPdf := fun _ => .error "unused",
    htmlToPdf := fun _ => .error "unused",
    encodeImg := fun _ _ => [],
    convRGB := id,
    flattenBg := id }

/-- Concrete bytes beginning with the PDF magic. -/
def pdfBytes0 : List Nat := [37, 80, 68, 70]

/-- Options requesting the direct PDF return mode. -/
def optsPdf : LoadOptions := { return_mode := "PDF_BYTES" }

/-- C7.  For every bytes input classified into the PDF family, load with
return mode PDF_BYTES returns exactly the input bytes: the direct-PDF
route is the identity on the source bytes, with no re-encoding. -/
theorem pdf_passthrough_identity (ctx : LoadCtx) (data : List Nat)
    (o : LoadOptions) (h1 : o.return_mode = "PDF_BYTES")
    (h2 : pdfFamilyB (detectFields ctx.magika data) = true) :
    loader_load ctx data o = .ok (.pdf data) := by
  simp [loader_load, h1, h2]

/-- Witness for C7: concrete PDF bytes pass through unchanged. -/
theorem pdf_passthrough_identity_witness :
    loader_load ctx0 pdfBytes0 optsPdf = .ok (.pdf pdfBytes0) :=
  pdf_passthrough_identity ctx0 pdfBytes0 optsPdf rfl (by decide)

/-- Floor division differs from round half up by at most one. -/
theorem floor_near_round (p q : Nat) (hq : 0 < q) :
    Nat.dist (p / q) ((2 * p + q) / (2 * q)) ≤ 1 := by
  obtain ⟨d, r, hr, rfl⟩ : ∃ d r, r < q ∧ p = q * d + r :=
    ⟨p / q, p % q, Nat.mod_lt _ hq, (Nat.div_add_mod p q).symm⟩
  have h1 : (q * d + r) / q = d := by
    rw [Nat.mul_add_div hq, Nat.div_eq_of_lt hr, Nat.add_zero]
  have e : 2 * (q * d + r) + q = (2 * q) * d + (2 * r + q) := by ring
  have h2 : (2 * (q * d + r) + q) / (2 * q) = d + (2 * r + q) / (2 * q) := by
    rw [e, Nat.mul_add_div (by omega)]
  have h3 : (2 * r + q) / (2 * q) < 2 := by
    rw [Nat.div_lt_iff_lt_mul (by omega)]
    omega
  rw [h1, h2]
  simp [Nat.dist]
  omega

/-- C8.  The max-side downscale step never lets the longest side exceed
maxSide, leaves the image unchanged when its longest side is already
within maxSide, scales both dimensions by the single ratio
maxSide over max(w, h) rounded down to the nearest pixel when it does
scale, each scaled dimension lies within one pixel of
round(original times maxSide over max(w, h)), and the rule on the
PDF-rasterisation path is the very function applied on the
single-image path. -/
theorem max_side_resize_correct (im : Img) (ms : Nat) (hms : 0 < ms)
    (hw : 0 < im.width) (hh : 0 < im.height) :
    max (resizeStepImagePath (some ms) im).width
      (resizeStepImagePath (some ms) im).height ≤ ms ∧
    (max im.width im.height ≤ ms → resizeStepImagePath (some ms) im = im) ∧
    (ms < max im.width im.height →
      (resizeStepImagePath (some ms) im).width =
        im.width * ms / max im.width im.height ∧
      (resizeStepImagePath (some ms) im).height =
        im.height * ms / max im.width im.height ∧
      Nat.dist (resizeStepImagePath (some ms) im).width
        (roundDiv (im.width * ms) (max im.width im.height)) ≤ 1 ∧
      Nat.dist (resizeStepImagePath (some ms) im).height
        (roundDiv (im.height * ms) (max im.width im.height)) ≤ 1) ∧
    (∀ (mso : Option Nat) (im2 : Img),
      resizeStepPdfPath mso im2 = resizeStepImagePath mso im2) := by
  have hm : 0 < max im.width im.height := lt_of_lt_of_le hw (Nat.le_max_left _ _)
  by_cases hlt : ms < max im.width im.height
  · have hres : resizeStepImagePath (some ms) im =
        { im with width := im.width * ms / max im.width im.height,
                  height := im.height * ms / max im.width im.height } := by
      simp [resizeStepImagePath, hlt]
    have h1 : im.width * ms / max im.width im.height ≤ ms :=
      calc im.width * ms / max im.width im.height
          ≤ max im.width im.height * ms / max im.width im.height :=
            Nat.div_le_div_right
              (Nat.mul_le_mul_right ms (Nat.le_max_left _ _))
        _ = ms := Nat.mul_div_cancel_left ms hm
    have h2 : im.height * ms / max im.width im.height ≤ ms :=
      calc im.height * ms / max im.width im.height
          ≤ max im.width im.height * ms / max im.width im.height :=
            Nat.div_le_div_right
              (Nat.mul_le_mul_right ms (Nat.le_max_right _ _))
        _ = ms := Nat.mul_div_cancel_left ms hm
    refine ⟨?_, ?_, ?_, ?_⟩
    · rw [hres]
      exact max_le h1 h2
    · intro hle
      omega
    · intro _
      rw [hres]
      refine ⟨rfl, rfl, ?_, ?_⟩
      · simp only [roundDiv]
        exact floor_near_round (im.width * ms) (max im.width im.height) hm
      · simp only [roundDiv]
        exact floor_near_round (im.height * ms) (max im.width im.height) hm
    · intro mso im2
      cases mso <;> rfl
  · have hres : resizeStepImagePath (some ms) im = im := by
      simp [resizeStepImagePath, hlt]
    refine ⟨?_, ?_, ?_, ?_⟩
    · rw [hres]
      omega
    · intro _
      exact hres
    · intro hlt2
      exact absurd hlt2 hlt
    · intro mso im2
      cases mso <;> rfl

/-- Witness for C8: a 30 by 20 image downscaled to maxSide 10 keeps its
longest side within 10. -/
theorem max_side_resize_correct_witness :
    max (resizeStepImagePath (some 10) ⟨30, 20, "RGBA", 0⟩).width
      (resizeStepImagePath (some 10) ⟨30, 20, "RGBA", 0⟩).height ≤ 10 :=
  (max_side_resize_correct ⟨30, 20, "RGBA", 0⟩ 10 (by decide) (by decide)
    (by decide)).1

/-- Options requesting the encoded-bytes return mode. -/
def optsBytes : LoadOptions := { return_mode := "BYTES" }

/-- Counterexample to C9.  Loading a zero-page PDF in the BYTES return
mode succeeds with an empty list: an empty input page sequence yields an
empty result, not an error. -/
theorem empty_pages_yield_empty_result :
    loader_load ctx0 pdfBytes0 optsBytes = .ok (.bytesList []) := by
  decide

/-- C9 as amended.  The output assembler preserves the order of the input
pages and emits exactly one output element per input page in every return
mode (each encoded-bytes element, archive entry and synthesised PDF page
at index i comes from the input page at index i, archive entries named
with the 1-based zero-padded page number); an empty input page sequence
yields an empty result rather than an error. -/
theorem assembler_preserves_pages (conv : Img → Img)
    (enc : Img → String → List Nat) (images : List Img)
    (fmt pref : String) (hint : Option String) (dpi : Nat) :
    (images_to_bytes conv enc images fmt).length = images.length ∧
    (∀ (i : Nat), (images_to_bytes conv enc images fmt)[i]? =
      (images[i]?).map (fun im => enc (jpegFix conv fmt im) fmt)) ∧
    (images_to_zip_entries conv enc images fmt pref hint).length =
      images.length ∧
    (∀ (i : Nat), (images_to_zip_entries conv enc images fmt pref hint)[i]? =
      (images[i]?).map (fun im =>
        (zipEntryName pref fmt hint (i + 1), enc (jpegFix conv fmt im) fmt))) ∧
    (images_to_pdf_pages conv enc dpi images).length = images.length ∧
    images_to_bytes conv enc [] fmt = [] ∧
    images_to_zip_entries conv enc [] fmt pref hint = [] ∧
    images_to_pdf_pages conv enc dpi [] = [] := by
  refine ⟨?_, ?_, ?_, ?_, ?_, rfl, rfl, rfl⟩
  · simp [images_to_bytes]
  · intro i
    simp [images_to_bytes, List.getElem?_map]
  · simp [images_to_zip_entries]
  · intro i
    simp only [images_to_zip_entries, List.getElem?_map, List.getElem?_enum]
    cases images[i]? <;> rfl
  · simp [images_to_pdf_pages]

/-- Extract the raised message of an Except value, if any. -/
def errMsg {α : Type} : Except String α → Option String
  | .error m => some m
  | .ok _ => none

/-- Concrete handler registered under the plain name doc. -/
def hDoc : Handler := { name := "doc", behavior := fun _ _ _ => .ok }

/-- Concrete handler whose name carries surrounding whitespace. -/
def hDoc2 : Handler := { name := " DOC ", behavior := fun _ _ _ => .ok }

/-- Counterexample to C10.  Registration keys are stripped of surrounding
whitespace before lowercasing, so a handler named with surrounding spaces
collides with an already-registered name even though the two names are
not equal under case-insensitive comparison alone. -/
theorem register_collides_after_strip :
    ((pyLower " DOC ") == (pyLower "doc")) = false ∧
    errMsg (registerHandler [("doc", hDoc)] hDoc2) =
      some ("handler already registered: doc") := by
  constructor
  · decide
  · rfl

/-- C10 as amended.  Registration fails exactly when a handler whose name
is equal after stripping surrounding whitespace and lowercasing is
already present, and otherwise inserts; dispatch fails with the
unknown-task error exactly when no handler matches the task name under
the same stripped case-insensitive comparison; on a match it invokes the
handler once and returns its outcome unmodified. -/
theorem registry_trimmed_case_insensitive (hs : List (String × Handler))
    (h : Handler) (tr : TaskRunRec) (f : FileRow) (d : List Nat) :
    (containsKey hs (normKey h.name) = true →
      registerHandler hs h =
        .error ("handler already registered: " ++ normKey h.name)) ∧
    (containsKey hs (normKey h.name) = false →
      registerHandler hs h = .ok (hs ++ [(normKey h.name, h)])) ∧
    (lookupKey hs (normKey tr.name) = none →
      manager_run hs tr f d = .exn ("unknown task: " ++ normKey tr.name)) ∧
    (∀ hh, lookupKey hs (normKey tr.name) = some hh →
      manager_run hs tr f d = hh.behavior tr f d) := by
  refine ⟨?_, ?_, ?_, ?_⟩
  · intro hc
    simp [registerHandler, hc]
  · intro hc
    simp [registerHandler, hc]
  · intro hl
    simp [manager_run, hl]
  · intro hh hl
    simp [manager_run, hl]

/-- Witness for the amended C10: the duplicate registration raises. -/
theorem registry_trimmed_case_insensitive_witness :
    registerHandler [("doc", hDoc)] hDoc2 =
      .error ("handler already registered: " ++ normKey hDoc2.name) :=
  (registry_trimmed_case_insensitive [("doc", hDoc)] hDoc2 tr0 f0 []).1
    (by decide)
